import Mathlib

/-!
Verification of the NBA-Shot-Chart-Analysis repository.

A shallow embedding of the repository's three analyzer classes
(`ShotChartAnalyzer` in shot_chart.py, `PlayerStatsAnalyzer` in
player_stats.py, `TeamStatsAnalyzer` in team_stats.py) and of the two
scripts that exchange a plain-text file of game identifiers
(grab_today_games.py and NBA_API.py).

Modelling conventions:
- A pandas dataframe is a `List` of row structures holding exactly the
  columns the code touches.
- A Python dict result is an association list `List (String × ℚ)` built in
  the code's insertion order (`{}` is `[]`).
- `raise ValueError(msg)` is `Except.error msg`; methods that both mutate
  the object and may raise return `State × Except String α`, the state
  being the object's attributes after the call (raised or not).
- The static lookup tables of `nba_api.stats.static` (players, teams) and
  the remote endpoints are external inputs, passed in as functions.
- Python numbers are ℚ (the code does exact counting and division; no
  claim depends on float rounding).
-/

/-- The static player table: `players.find_players_by_full_name` returns a
list of player dicts; only the `id` field is read, so we keep the id list. -/
abbrev PlayerDB : Type := String → List Nat

/-- The static team table: `teams.find_teams_by_full_name` returns a list of
team dicts (ids kept) and `teams.find_team_by_abbreviation` a single
optional team dict (id kept). -/
structure TeamDB where
  full : String → List Nat
  abbr : String → Option Nat

/-- A row of the ShotChartDetail result frame: the columns read by
shot_chart.py (`LOC_X`, `LOC_Y`, `SHOT_MADE_FLAG`, `SHOT_TYPE`). -/
structure ShotRow where
  LOC_X : Int
  LOC_Y : Int
  SHOT_MADE_FLAG : Int
  SHOT_TYPE : String
deriving DecidableEq, Repr

abbrev ShotDF : Type := List ShotRow

/-- A row of the PlayerCareerStats result frame: plot_career_progression
reads `SEASON_ID` and an arbitrary stat column (`cols`). -/
structure CareerRow where
  SEASON_ID : String
  cols : String → ℚ

/-- A row of the PlayerGameLog result frame: the numeric columns read by
player_stats.py. -/
structure PlayerGameRow where
  PTS : ℚ
  AST : ℚ
  REB : ℚ
  STL : ℚ
  BLK : ℚ
  FG_PCT : ℚ
  FG3_PCT : ℚ
  FT_PCT : ℚ
  MIN : ℚ
deriving DecidableEq, Repr

/-- A row of the TeamGameLog result frame: the columns read by
team_stats.py (the frame has no `OPP_PTS` column). -/
structure TeamGameRow where
  WL : String
  PTS : ℚ
  REB : ℚ
  AST : ℚ
  FG_PCT : ℚ
  FG3_PCT : ℚ
  FT_PCT : ℚ
deriving DecidableEq, Repr

abbrev CareerDF : Type := List CareerRow
abbrev PlayerGameDF : Type := List PlayerGameRow
abbrev TeamGameDF : Type := List TeamGameRow

/-- A row of the LeagueDashTeamStats frame: team_stats.py reads `TEAM_NAME`
and arbitrary stat columns. -/
structure LeagueRow where
  TEAM_NAME : String
  cols : String → ℚ

abbrev LeagueDF : Type := List LeagueRow

/-- The remote endpoints, external to the repository: each is a total
function from the request parameters to the returned first dataframe. -/
structure Remote where
  shotChartDetail : Nat → String → String → ShotDF
  playerCareerStats : Nat → String → CareerDF
  playerGameLog : Nat → String → String → PlayerGameDF
  teamGameLog : Nat → String → String → TeamGameDF
  leagueDashTeamStats : String → String → LeagueDF

/-- Attributes of a `ShotChartAnalyzer` instance (shot_chart.py, `__init__`). -/
structure SState where
  shot_data : Option ShotDF
deriving DecidableEq

/-- Attributes of a `PlayerStatsAnalyzer` instance (player_stats.py, `__init__`). -/
structure PState where
  player_id : Option Nat
  player_name : Option String
  career_stats : Option CareerDF
  game_log : Option PlayerGameDF

/-- Attributes of a `TeamStatsAnalyzer` instance (team_stats.py, `__init__`). -/
structure TState where
  team_id : Option Nat
  team_name : Option String
  team_stats : Option LeagueDF
  game_log : Option TeamGameDF

def SState.init : SState := ⟨none⟩
def PState.init : PState := ⟨none, none, none, none⟩
def TState.init : TState := ⟨none, none, none, none⟩

/-- `get_player_id` (shot_chart.py and player_stats.py, identical): first
match's id if the lookup list is nonempty, else None. -/
def get_player_id (db : PlayerDB) (player_name : String) : Option Nat :=
  (db player_name).head?

/-- `get_team_id` (team_stats.py): try the full-name lookup, then the
abbreviation lookup, else None. -/
def get_team_id (db : TeamDB) (team_name : String) : Option Nat :=
  match (db.full team_name).head? with
  | some i => some i
  | none => db.abbr team_name

/-- The `ValueError` message of the player fetches. -/
def playerNotFoundMsg (player_name : String) : String :=
  "Player \x27" ++ player_name ++ "\x27 not found"

/-- The `ValueError` message of `fetch_team_game_log`. -/
def teamNotFoundMsg (team_name : String) : String :=
  "Team \x27" ++ team_name ++ "\x27 not found"

/-- `ShotChartAnalyzer.fetch_shot_data`: resolve the name, raise if it does
not resolve, else fetch and cache the shot frame. -/
def fetch_shot_data (remote : Remote) (db : PlayerDB) (st : SState)
    (player_name season season_type : String) : SState × Except String ShotDF :=
  match get_player_id db player_name with
  | none => (st, .error (playerNotFoundMsg player_name))
  | some pid =>
      let df := remote.shotChartDetail pid season season_type
      ({ shot_data := some df }, .ok df)

/-- `PlayerStatsAnalyzer.fetch_player_info`: assigns `player_id` and
`player_name` before the None check, then raises or fetches (the result
frame is not cached). -/
def fetch_player_info (remote : Remote) (db : PlayerDB) (st : PState)
    (player_name : String) : PState × Except String CareerDF :=
  let pid := get_player_id db player_name
  let st := { st with player_id := pid, player_name := some player_name }
  match pid with
  | none => (st, .error (playerNotFoundMsg player_name))
  | some i => (st, .ok (remote.playerCareerStats i "info"))

/-- `PlayerStatsAnalyzer.fetch_career_stats`: assigns `player_id` and
`player_name`, raises if the id is None, else fetches and caches
`career_stats`. -/
def fetch_career_stats (remote : Remote) (db : PlayerDB) (st : PState)
    (player_name per_mode : String) : PState × Except String CareerDF :=
  let pid := get_player_id db player_name
  let st := { st with player_id := pid, player_name := some player_name }
  match pid with
  | none => (st, .error (playerNotFoundMsg player_name))
  | some i =>
      let df := remote.playerCareerStats i per_mode
      ({ st with career_stats := some df }, .ok df)

/-- `PlayerStatsAnalyzer.fetch_game_log`: assigns `player_id` and
`player_name`, raises if the id is None, else fetches and caches
`game_log`. -/
def fetch_game_log (remote : Remote) (db : PlayerDB) (st : PState)
    (player_name season season_type : String) : PState × Except String PlayerGameDF :=
  let pid := get_player_id db player_name
  let st := { st with player_id := pid, player_name := some player_name }
  match pid with
  | none => (st, .error (playerNotFoundMsg player_name))
  | some i =>
      let df := remote.playerGameLog i season season_type
      ({ st with game_log := some df }, .ok df)

/-- `TeamStatsAnalyzer.fetch_league_standings`: no name resolution; fetches
and caches `team_stats`. -/
def fetch_league_standings (remote : Remote) (st : TState)
    (season season_type : String) : TState × Except String LeagueDF :=
  let df := remote.leagueDashTeamStats season season_type
  ({ st with team_stats := some df }, .ok df)

/-- `TeamStatsAnalyzer.fetch_team_game_log`: assigns `team_id` and
`team_name`, raises if the id is None, else fetches and caches
`game_log`. -/
def fetch_team_game_log (remote : Remote) (db : TeamDB) (st : TState)
    (team_name season season_type : String) : TState × Except String TeamGameDF :=
  let tid := get_team_id db team_name
  let st := { st with team_id := tid, team_name := some team_name }
  match tid with
  | none => (st, .error (teamNotFoundMsg team_name))
  | some i =>
      let df := remote.teamGameLog i season season_type
      ({ st with game_log := some df }, .ok df)

/-- `pandas.Series.mean`: sum over length (callers guard nonemptiness). -/
def listMean (l : List ℚ) : ℚ := l.sum / l.length

/-- The made-shot filter `shot_data[shot_data['SHOT_MADE_FLAG'] == 1]`. -/
def made_shots_of (df : ShotDF) : ShotDF :=
  df.filter (fun r => r.SHOT_MADE_FLAG = 1)

/-- The missed-shot filter `shot_data[shot_data['SHOT_MADE_FLAG'] == 0]`. -/
def missed_shots_of (df : ShotDF) : ShotDF :=
  df.filter (fun r => r.SHOT_MADE_FLAG = 0)

/-- The filter `shot_data[shot_data['SHOT_TYPE'] == '3PT Field Goal']`. -/
def three_pointers_of (df : ShotDF) : ShotDF :=
  df.filter (fun r => r.SHOT_TYPE = "3PT Field Goal")

/-- The filter `shot_data[shot_data['SHOT_TYPE'] == '2PT Field Goal']`. -/
def two_pointers_of (df : ShotDF) : ShotDF :=
  df.filter (fun r => r.SHOT_TYPE = "2PT Field Goal")

/-- `ShotChartAnalyzer.get_shot_statistics`: empty dict when no data is
loaded or the frame is empty; otherwise the overall counts and percentage,
then the three-point entries when any three-point row exists, then the
two-point entries when any two-point row exists. -/
def get_shot_statistics (st : SState) : List (String × ℚ) :=
  match st.shot_data with
  | none => []
  | some df =>
    if df.length = 0 then []
    else
      let total_shots := df.length
      let made_shots := (made_shots_of df).length
      let base : List (String × ℚ) :=
        [("total_shots", total_shots),
         ("made_shots", made_shots),
         ("missed_shots", (total_shots : ℚ) - made_shots),
         ("fg_percentage", if 0 < total_shots then
            (made_shots : ℚ) / total_shots * 100 else 0)]
      let three_pointers := three_pointers_of df
      let threePart : List (String × ℚ) :=
        if 0 < three_pointers.length then
          let made_3pt := (three_pointers.filter (fun r => r.SHOT_MADE_FLAG = 1)).length
          [("three_pt_attempts", three_pointers.length),
           ("three_pt_made", made_3pt),
           ("three_pt_percentage", (made_3pt : ℚ) / three_pointers.length * 100)]
        else []
      let two_pointers := two_pointers_of df
      let twoPart : List (String × ℚ) :=
        if 0 < two_pointers.length then
          let made_2pt := (two_pointers.filter (fun r => r.SHOT_MADE_FLAG = 1)).length
          [("two_pt_attempts", two_pointers.length),
           ("two_pt_made", made_2pt),
           ("two_pt_percentage", (made_2pt : ℚ) / two_pointers.length * 100)]
        else []
      base ++ threePart ++ twoPart

/-- The field-goal percentage computed in `plot_shot_chart`:
`(len(made_shots) / len(self.shot_data) * 100) if len(self.shot_data) > 0 else 0`. -/
def shot_fg_pct (df : ShotDF) : ℚ :=
  if 0 < df.length then ((made_shots_of df).length : ℚ) / df.length * 100 else 0

/-- Rendering of a number under Python format `:.1f` (one decimal digit;
modelled over ℚ with round-to-nearest; only used inside the chart title). -/
def fmt1 (q : ℚ) : String :=
  let n : Int := round (q * 10)
  toString (n / 10) ++ "." ++ toString (n % 10)

/-- The default title string of `plot_shot_chart` (an f-string over the
call's `player_name`, `season`, `season_type` and the computed FG%). -/
def default_title (player_name season season_type : String) (fg : ℚ) : String :=
  player_name ++ " Shot Chart\n" ++ season ++ " " ++ season_type ++
    "\nFG%: " ++ fmt1 fg ++ "%"

/-- The figure produced by `plot_shot_chart`: the scatter coordinates of the
made and missed shots and the title put on the chart. -/
structure ShotPlot where
  made : List (Int × Int)
  missed : List (Int × Int)
  title : String
deriving DecidableEq, Repr

/-- The chart contents `plot_shot_chart` computes from a shot frame. -/
def shotPlotOf (df : ShotDF) (player_name season season_type : String)
    (title : Option String) : ShotPlot :=
  { made := (made_shots_of df).map (fun r => (r.LOC_X, r.LOC_Y))
    missed := (missed_shots_of df).map (fun r => (r.LOC_X, r.LOC_Y))
    title := match title with
      | some t => t
      | none => default_title player_name season season_type (shot_fg_pct df) }

/-- `ShotChartAnalyzer.plot_shot_chart`: fetches only when `shot_data` is
None (propagating the fetch's ValueError), then plots the cached frame. -/
def plot_shot_chart (remote : Remote) (db : PlayerDB) (st : SState)
    (player_name season season_type : String) (title : Option String) :
    SState × Except String ShotPlot :=
  match st.shot_data with
  | some df => (st, .ok (shotPlotOf df player_name season season_type title))
  | none =>
    match fetch_shot_data remote db st player_name season season_type with
    | (st1, .error e) => (st1, .error e)
    | (st1, .ok df) => (st1, .ok (shotPlotOf df player_name season season_type title))

/-- `PlayerStatsAnalyzer.plot_career_progression`: raises when
`career_stats` is None or empty, else plots `SEASON_ID` against the chosen
column. -/
def plot_career_progression (st : PState) (stat_column : String) :
    Except String (List (String × ℚ)) :=
  match st.career_stats with
  | none => .error "No career stats loaded. Call fetch_career_stats first."
  | some cs =>
    if cs.length = 0 then .error "No career stats loaded. Call fetch_career_stats first."
    else .ok (cs.map (fun r => (r.SEASON_ID, r.cols stat_column)))

/-- `PlayerStatsAnalyzer.plot_season_performance`: raises when `game_log` is
None or empty, else plots over the log reversed into chronological order. -/
def plot_season_performance (st : PState) : Except String PlayerGameDF :=
  match st.game_log with
  | none => .error "No game log loaded. Call fetch_game_log first."
  | some log =>
    if log.length = 0 then .error "No game log loaded. Call fetch_game_log first."
    else .ok log.reverse

/-- `PlayerStatsAnalyzer.get_season_averages`: empty dict when `game_log` is
None or empty, else the mean of each of the nine listed columns (all nine
are numeric columns of the game-log frame). -/
def get_season_averages (st : PState) : List (String × ℚ) :=
  match st.game_log with
  | none => []
  | some log =>
    if log.length = 0 then []
    else
      [("PTS", listMean (log.map (·.PTS))),
       ("AST", listMean (log.map (·.AST))),
       ("REB", listMean (log.map (·.REB))),
       ("STL", listMean (log.map (·.STL))),
       ("BLK", listMean (log.map (·.BLK))),
       ("FG_PCT", listMean (log.map (·.FG_PCT))),
       ("FG3_PCT", listMean (log.map (·.FG3_PCT))),
       ("FT_PCT", listMean (log.map (·.FT_PCT))),
       ("MIN", listMean (log.map (·.MIN)))]

/-- `PlayerStatsAnalyzer.plot_shooting_splits`: raises when `game_log` is
None or empty, else the three mean shooting percentages. -/
def plot_shooting_splits (st : PState) : Except String (List (String × ℚ)) :=
  match st.game_log with
  | none => .error "No game log loaded. Call fetch_game_log first."
  | some log =>
    if log.length = 0 then .error "No game log loaded. Call fetch_game_log first."
    else .ok
      [("FG%", listMean (log.map (·.FG_PCT)) * 100),
       ("3P%", listMean (log.map (·.FG3_PCT)) * 100),
       ("FT%", listMean (log.map (·.FT_PCT)) * 100)]

/-- Python float rounding to two decimals (`Series.round(2)`), over ℚ. -/
def round2 (q : ℚ) : ℚ := ((round (q * 100) : ℤ) : ℚ) / 100

/-- `PlayerStatsAnalyzer.create_stats_summary`: empty dataframe when
`game_log` is None or empty, else the Statistic/Value table with values
rounded to two decimals. -/
def create_stats_summary (st : PState) : List (String × ℚ) :=
  match st.game_log with
  | none => []
  | some log =>
    if log.length = 0 then []
    else
      [("Games Played", round2 log.length),
       ("PPG", round2 (listMean (log.map (·.PTS)))),
       ("RPG", round2 (listMean (log.map (·.REB)))),
       ("APG", round2 (listMean (log.map (·.AST)))),
       ("SPG", round2 (listMean (log.map (·.STL)))),
       ("BPG", round2 (listMean (log.map (·.BLK)))),
       ("FG%", round2 (listMean (log.map (·.FG_PCT)) * 100)),
       ("3P%", round2 (listMean (log.map (·.FG3_PCT)) * 100)),
       ("FT%", round2 (listMean (log.map (·.FT_PCT)) * 100)),
       ("MPG", round2 (listMean (log.map (·.MIN))))]

/-- `TeamStatsAnalyzer.plot_league_leaders`: raises when `team_stats` is
None or empty, else the top-n teams by the chosen column (descending). -/
def plot_league_leaders (st : TState) (stat_column : String) (top_n : Nat) :
    Except String (List (String × ℚ)) :=
  match st.team_stats with
  | none => .error "No team stats loaded. Call fetch_league_standings first."
  | some ts =>
    if ts.length = 0 then .error "No team stats loaded. Call fetch_league_standings first."
    else .ok (((ts.mergeSort (fun a b => decide (b.cols stat_column ≤ a.cols stat_column))).take
      top_n).map (fun r => (r.TEAM_NAME, r.cols stat_column)))

/-- `TeamStatsAnalyzer.plot_team_performance`: raises when `game_log` is
None or empty, else plots over the log reversed into chronological order. -/
def plot_team_performance (st : TState) : Except String TeamGameDF :=
  match st.game_log with
  | none => .error "No game log loaded. Call fetch_team_game_log first."
  | some log =>
    if log.length = 0 then .error "No game log loaded. Call fetch_team_game_log first."
    else .ok log.reverse

/-- `IS_WIN`: `game_log['WL'].apply(lambda x: 1 if x == 'W' else 0)`. -/
def is_win (r : TeamGameRow) : ℤ := if r.WL = "W" then 1 else 0

/-- `pandas.Series.cumsum`: running partial sums, same length as the input. -/
def cumsum (l : List ℤ) : List ℤ := (l.scanl (· + ·) 0).tail

/-- The columns `plot_win_loss_record` adds to the (reversed) game log. -/
structure WinLossPlot where
  IS_WIN : List ℤ
  CUMULATIVE_WINS : List ℤ
  CUMULATIVE_LOSSES : List ℤ
deriving DecidableEq, Repr

/-- `TeamStatsAnalyzer.plot_win_loss_record`: raises when `game_log` is None
or empty; else reverses the log into chronological order, marks each game
with `IS_WIN` (1 exactly on a literal `W`), and plots the cumulative sums of
`IS_WIN` and of `1 - IS_WIN`. -/
def plot_win_loss_record (st : TState) : Except String WinLossPlot :=
  match st.game_log with
  | none => .error "No game log loaded. Call fetch_team_game_log first."
  | some log =>
    if log.length = 0 then .error "No game log loaded. Call fetch_team_game_log first."
    else
      let game_log := log.reverse
      let w := game_log.map is_win
      .ok { IS_WIN := w
            CUMULATIVE_WINS := cumsum w
            CUMULATIVE_LOSSES := cumsum (w.map (fun x => 1 - x)) }

/-- `TeamStatsAnalyzer.get_team_summary`: empty dict when `game_log` is None
or empty; wins and losses count the rows whose `WL` equals the literal `W`
and `L` respectively, with no consistency check against `games_played`.
`opp_ppg` averages `game_log.get('OPP_PTS', pd.Series([0]))`: the TeamGameLog
frame has no `OPP_PTS` column, so the default one-element series is used. -/
def get_team_summary (st : TState) : List (String × ℚ) :=
  match st.game_log with
  | none => []
  | some log =>
    if log.length = 0 then []
    else
      let wins := (log.filter (fun r => r.WL = "W")).length
      let losses := (log.filter (fun r => r.WL = "L")).length
      [("games_played", log.length),
       ("wins", wins),
       ("losses", losses),
       ("win_percentage", if 0 < log.length then (wins : ℚ) / log.length * 100 else 0),
       ("ppg", listMean (log.map (·.PTS))),
       ("opp_ppg", listMean [0]),
       ("fg_pct", listMean (log.map (·.FG_PCT)) * 100),
       ("fg3_pct", listMean (log.map (·.FG3_PCT)) * 100),
       ("ft_pct", listMean (log.map (·.FT_PCT)) * 100),
       ("reb_pg", listMean (log.map (·.REB))),
       ("ast_pg", listMean (log.map (·.AST)))]

/-- Python `str.strip()` whitespace set (the characters relevant here). -/
def isPySpace (c : Char) : Bool :=
  c = ' ' || c = '\t' || c = '\n' || c = '\r' || c = '\x0b' || c = '\x0c'

/-- Python `str.strip()`: drop leading and trailing whitespace. -/
def pyStrip (s : List Char) : List Char :=
  ((s.dropWhile isPySpace).reverse.dropWhile isPySpace).reverse

/-- `grab_today_games.write_to_text`, serialisation part: when the id list
is empty nothing is written (None); otherwise the file contents are each id
followed by a newline, in order, with no header. Strings are `List Char`. -/
def write_to_text (game_ids : List (List Char)) : Option (List Char) :=
  if game_ids.isEmpty then none
  else some (game_ids.foldr (fun gid acc => gid ++ '\n' :: acc) [])

/-- Python file-line iteration: the chunks between newlines, the terminating
newline split off (each line is then passed through `strip`, which removes a
trailing newline anyway, so splitting it off here is equivalent); a final
chunk without a newline is its own line; no empty final line. -/
def fileLines : List Char → List (List Char)
  | [] => []
  | c :: rest =>
    if c = '\n' then [] :: fileLines rest
    else
      match fileLines rest with
      | [] => [[c]]
      | l :: ls => (c :: l) :: ls

/-- The read loop of NBA_API.py: `for line in f: games.append(line.strip())`. -/
def read_games (contents : List Char) : List (List Char) :=
  (fileLines contents).map pyStrip

/-- The state-changing operations of a `ShotChartAnalyzer` instance
(`get_shot_statistics` and `draw_court` assign no attributes). -/
inductive ShotOp where
  | fetch (player_name season season_type : String)
  | plot (player_name season season_type : String) (title : Option String)

def runShotOp (remote : Remote) (db : PlayerDB) (st : SState) : ShotOp → SState
  | .fetch n s t => (fetch_shot_data remote db st n s t).1
  | .plot n s t ti => (plot_shot_chart remote db st n s t ti).1

def runShotOps (remote : Remote) (db : PlayerDB) (st : SState)
    (ops : List ShotOp) : SState :=
  ops.foldl (runShotOp remote db) st

/-- The state-changing operations of a `PlayerStatsAnalyzer` instance (the
plot and summary methods assign no attributes). -/
inductive PlayerOp where
  | info (player_name : String)
  | career (player_name per_mode : String)
  | log (player_name season season_type : String)

def runPlayerOp (remote : Remote) (db : PlayerDB) (st : PState) : PlayerOp → PState
  | .info n => (fetch_player_info remote db st n).1
  | .career n pm => (fetch_career_stats remote db st n pm).1
  | .log n s t => (fetch_game_log remote db st n s t).1

def runPlayerOps (remote : Remote) (db : PlayerDB) (st : PState)
    (ops : List PlayerOp) : PState :=
  ops.foldl (runPlayerOp remote db) st

/-- The state-changing operations of a `TeamStatsAnalyzer` instance (the
plot and summary methods assign no attributes). -/
inductive TeamOp where
  | standings (season season_type : String)
  | log (team_name season season_type : String)

def runTeamOp (remote : Remote) (db : TeamDB) (st : TState) : TeamOp → TState
  | .standings s t => (fetch_league_standings remote st s t).1
  | .log n s t => (fetch_team_game_log remote db st n s t).1

def runTeamOps (remote : Remote) (db : TeamDB) (st : TState)
    (ops : List TeamOp) : TState :=
  ops.foldl (runTeamOp remote db) st

/-- The number of non-None dataframe-valued attributes of the instance. -/
def SState.dfCount (st : SState) : Nat :=
  if st.shot_data.isSome then 1 else 0

/-- The number of non-None dataframe-valued attributes of the instance
(`career_stats` and `game_log`). -/
def PState.dfCount (st : PState) : Nat :=
  (if st.career_stats.isSome then 1 else 0) + (if st.game_log.isSome then 1 else 0)

/-- The number of non-None dataframe-valued attributes of the instance
(`team_stats` and `game_log`). -/
def TState.dfCount (st : TState) : Nat :=
  (if st.team_stats.isSome then 1 else 0) + (if st.game_log.isSome then 1 else 0)

/-! Concrete external inputs used to exercise the model on closed inputs. -/

/-- A remote service answering every request with an empty frame. -/
def trivRemote : Remote :=
  { shotChartDetail := fun _ _ _ => []
    playerCareerStats := fun _ _ => []
    playerGameLog := fun _ _ _ => []
    teamGameLog := fun _ _ _ => []
    leagueDashTeamStats := fun _ _ => [] }

/-- A player table in which no name resolves. -/
def emptyDB : PlayerDB := fun _ => []

/-- A player table in which every name resolves to id 1. -/
def oneDB : PlayerDB := fun _ => [1]

/-- A team table in which no name resolves. -/
def emptyTeamDB : TeamDB := ⟨fun _ => [], fun _ => none⟩

/-- A team table in which every full name resolves to id 10. -/
def oneTeamDB : TeamDB := ⟨fun _ => [10], fun _ => none⟩

/-- A game row whose `WL` value is neither `W` nor `L`. -/
def tieRow : TeamGameRow :=
  { WL := "T", PTS := 0, REB := 0, AST := 0, FG_PCT := 0, FG3_PCT := 0, FT_PCT := 0 }

/-- A won game row. -/
def winRow : TeamGameRow :=
  { WL := "W", PTS := 0, REB := 0, AST := 0, FG_PCT := 0, FG3_PCT := 0, FT_PCT := 0 }

/-- A lost game row. -/
def lossRow : TeamGameRow :=
  { WL := "L", PTS := 0, REB := 0, AST := 0, FG_PCT := 0, FG3_PCT := 0, FT_PCT := 0 }

/-- A made three-point shot row. -/
def made3Row : ShotRow :=
  { LOC_X := -220, LOC_Y := 30, SHOT_MADE_FLAG := 1, SHOT_TYPE := "3PT Field Goal" }

/-- A missed two-point shot row. -/
def missed2Row : ShotRow :=
  { LOC_X := 10, LOC_Y := 20, SHOT_MADE_FLAG := 0, SHOT_TYPE := "2PT Field Goal" }

/-- A two-row shot frame: one made three, one missed two. -/
def sampleShotDF : ShotDF := [made3Row, missed2Row]

/-- Two whitespace-free game identifiers. -/
def sampleIds : List (List Char) := [['0', '2'], ['4', '1']]

/-! Helper lemmas about running sums (pandas `cumsum`). -/

theorem scanl_add_getD (l : List ℤ) (x : ℤ) (i : Nat) (h : i ≤ l.length) :
    (l.scanl (· + ·) x).getD i 0 = x + (l.take i).sum := by
  induction l generalizing x i with
  | nil =>
    have hi : i = 0 := by simpa using h
    subst hi
    simp [List.scanl]
  | cons a t ih =>
    cases i with
    | zero => simp [List.scanl]
    | succ j =>
      simp only [List.scanl, List.getD_cons_succ, List.take, List.sum_cons]
      rw [ih (x + a) j (by simpa using h)]
      ring

theorem cumsum_getD (l : List ℤ) (i : Nat) (h : i < l.length) :
    (cumsum l).getD i 0 = (l.take (i + 1)).sum := by
  cases l with
  | nil => simp at h
  | cons a t =>
    simp only [cumsum, List.scanl, List.tail_cons]
    rw [scanl_add_getD t (0 + a) i (by simp at h; omega)]
    simp [List.take, List.sum_cons]

theorem sum_map_one_sub (l : List ℤ) :
    (l.map (fun x => 1 - x)).sum = l.length - l.sum := by
  induction l with
  | nil => simp
  | cons a t ih => simp [ih]; ring

/-! Helper lemmas about `strip` and file-line iteration. -/

theorem dropWhile_of_none (p : Char → Bool) (s : List Char)
    (h : ∀ c ∈ s, p c = false) : s.dropWhile p = s := by
  cases s with
  | nil => rfl
  | cons a t => simp [List.dropWhile, h a (by simp)]

theorem pyStrip_of_no_space (s : List Char) (h : ∀ c ∈ s, isPySpace c = false) :
    pyStrip s = s := by
  unfold pyStrip
  rw [dropWhile_of_none _ _ h, dropWhile_of_none, List.reverse_reverse]
  intro c hc
  exact h c (by simpa using hc)

theorem fileLines_append (g rest : List Char) (hg : ∀ c ∈ g, c ≠ '\n') :
    fileLines (g ++ '\n' :: rest) = g :: fileLines rest := by
  induction g with
  | nil => simp [fileLines]
  | cons c g ih =>
    have hc : c ≠ '\n' := hg c (by simp)
    simp only [List.cons_append, fileLines, if_neg hc, List.append_eq]
    rw [ih (fun d hd => hg d (by simp [hd]))]

theorem read_serialized (ids : List (List Char))
    (h : ∀ id ∈ ids, ∀ c ∈ id, isPySpace c = false) :
    read_games (ids.foldr (fun gid acc => gid ++ '\n' :: acc) []) = ids := by
  induction ids with
  | nil => rfl
  | cons g gs ih =>
    have hg : ∀ c ∈ g, isPySpace c = false := h g (by simp)
    have hgn : ∀ c ∈ g, c ≠ '\n' := by
      intro c hc hEq
      have hfalse := hg c hc
      subst hEq
      simp [isPySpace] at hfalse
    unfold read_games
    simp only [List.foldr_cons]
    rw [fileLines_append _ _ hgn]
    simp only [List.map_cons]
    rw [pyStrip_of_no_space g hg]
    have ihx := ih (fun id hid c hc => h id (by simp [hid]) c hc)
    unfold read_games at ihx
    rw [ihx]

/-- C1: each of `fetch_shot_data`, `fetch_career_stats`, `fetch_game_log`
and `fetch_team_game_log` raises a ValueError naming the unresolved name
exactly when the name-to-id lookup returns None, and returns a frame (no
error from the resolution step) whenever the lookup succeeds. -/
theorem C1_fetch_error_iff_unresolved (remote : Remote) (pdb : PlayerDB)
    (tdb : TeamDB) (s : SState) (p : PState) (t : TState)
    (name tname season stype pm : String) :
    ((get_player_id pdb name = none →
        (fetch_shot_data remote pdb s name season stype).2
          = .error (playerNotFoundMsg name))
      ∧ ∀ i, get_player_id pdb name = some i →
          ∃ df, (fetch_shot_data remote pdb s name season stype).2 = .ok df)
    ∧ ((get_player_id pdb name = none →
        (fetch_career_stats remote pdb p name pm).2
          = .error (playerNotFoundMsg name))
      ∧ ∀ i, get_player_id pdb name = some i →
          ∃ df, (fetch_career_stats remote pdb p name pm).2 = .ok df)
    ∧ ((get_player_id pdb name = none →
        (fetch_game_log remote pdb p name season stype).2
          = .error (playerNotFoundMsg name))
      ∧ ∀ i, get_player_id pdb name = some i →
          ∃ df, (fetch_game_log remote pdb p name season stype).2 = .ok df)
    ∧ ((get_team_id tdb tname = none →
        (fetch_team_game_log remote tdb t tname season stype).2
          = .error (teamNotFoundMsg tname))
      ∧ ∀ i, get_team_id tdb tname = some i →
          ∃ df, (fetch_team_game_log remote tdb t tname season stype).2 = .ok df) := by
  refine ⟨⟨?_, ?_⟩, ⟨?_, ?_⟩, ⟨?_, ?_⟩, ⟨?_, ?_⟩⟩
  · intro h; simp [fetch_shot_data, h]
  · intro i h; simp [fetch_shot_data, h]
  · intro h; simp [fetch_career_stats, h]
  · intro i h; simp [fetch_career_stats, h]
  · intro h; simp [fetch_game_log, h]
  · intro i h; simp [fetch_game_log, h]
  · intro h; simp [fetch_team_game_log, h]
  · intro i h; simp [fetch_team_game_log, h]

/-- Witness for C1: a failing and a succeeding lookup for the player
fetches, and a failing one for the team fetch. -/
theorem C1_witness :
    (fetch_shot_data trivRemote emptyDB SState.init "Nobody" "2023-24"
        "Regular Season").2 = .error (playerNotFoundMsg "Nobody")
    ∧ (∃ df, (fetch_career_stats trivRemote oneDB PState.init "LeBron James"
        "PerGame").2 = .ok df)
    ∧ (fetch_team_game_log trivRemote emptyTeamDB TState.init "Nowhere"
        "2023-24" "Regular Season").2 = .error (teamNotFoundMsg "Nowhere") := by
  refine ⟨?_, ?_, ?_⟩
  · exact (C1_fetch_error_iff_unresolved trivRemote emptyDB emptyTeamDB
      SState.init PState.init TState.init "Nobody" "Nowhere" "2023-24"
      "Regular Season" "PerGame").1.1 rfl
  · exact (C1_fetch_error_iff_unresolved trivRemote oneDB emptyTeamDB
      SState.init PState.init TState.init "LeBron James" "Nowhere" "2023-24"
      "Regular Season" "PerGame").2.1.2 1 rfl
  · exact (C1_fetch_error_iff_unresolved trivRemote emptyDB emptyTeamDB
      SState.init PState.init TState.init "Nobody" "Nowhere" "2023-24"
      "Regular Season" "PerGame").2.2.2.1 rfl

/-- C2 counterexample: on a fresh `PlayerStatsAnalyzer`, a successful
`fetch_career_stats` followed by a successful `fetch_game_log` leaves two
dataframe-valued attributes non-None at once, refuting the claim that each
analyzer holds at most one cached dataframe. -/
theorem C2_counterexample :
    1 < (runPlayerOps trivRemote oneDB PState.init
      [PlayerOp.career "LeBron James" "PerGame",
       PlayerOp.log "LeBron James" "2023-24" "Regular Season"]).dfCount := by
  decide

/-- C2 amended: a `ShotChartAnalyzer` instance holds at most one cached
dataframe at any time; `PlayerStatsAnalyzer` and `TeamStatsAnalyzer` each
have two dataframe-valued attributes (`career_stats`/`game_log`,
`team_stats`/`game_log`) and so hold at most two cached dataframes at any
time, one per attribute. -/
theorem C2_amended_df_bounds (remote : Remote) (pdb : PlayerDB) (tdb : TeamDB)
    (sOps : List ShotOp) (pOps : List PlayerOp) (tOps : List TeamOp) :
    (runShotOps remote pdb SState.init sOps).dfCount ≤ 1
    ∧ (runPlayerOps remote pdb PState.init pOps).dfCount ≤ 2
    ∧ (runTeamOps remote tdb TState.init tOps).dfCount ≤ 2 := by
  refine ⟨?_, ?_, ?_⟩
  · unfold SState.dfCount; split <;> omega
  · unfold PState.dfCount; split <;> split <;> omega
  · unfold TState.dfCount; split <;> split <;> omega

/-- C7: a successful `fetch_career_stats` replaces `career_stats` (and
`player_id`, `player_name`) and leaves `game_log` as it was; a successful
`fetch_game_log` replaces `game_log` and leaves `career_stats` as it was. -/
theorem C7_fetch_frame_effects (remote : Remote) (db : PlayerDB) (st : PState)
    (name pm season stype : String) :
    (∀ df, (fetch_career_stats remote db st name pm).2 = .ok df →
      (fetch_career_stats remote db st name pm).1
        = { st with player_id := get_player_id db name,
                    player_name := some name,
                    career_stats := some df })
    ∧ (∀ df, (fetch_game_log remote db st name season stype).2 = .ok df →
      (fetch_game_log remote db st name season stype).1
        = { st with player_id := get_player_id db name,
                    player_name := some name,
                    game_log := some df }) := by
  constructor
  · intro df h
    cases hid : get_player_id db name with
    | none => simp [fetch_career_stats, hid] at h
    | some i =>
      simp [fetch_career_stats, hid] at h ⊢
      simp [h]
  · intro df h
    cases hid : get_player_id db name with
    | none => simp [fetch_game_log, hid] at h
    | some i =>
      simp [fetch_game_log, hid] at h ⊢
      simp [h]

/-- Witness for C7: both fetches on a concrete fresh analyzer against a
remote returning empty frames. -/
theorem C7_witness :
    (fetch_career_stats trivRemote oneDB PState.init "A" "PerGame").1
      = { PState.init with player_id := get_player_id oneDB "A",
                           player_name := some "A", career_stats := some [] }
    ∧ (fetch_game_log trivRemote oneDB PState.init "A" "2023-24"
        "Regular Season").1
      = { PState.init with player_id := get_player_id oneDB "A",
                           player_name := some "A", game_log := some [] } :=
  ⟨(C7_fetch_frame_effects trivRemote oneDB PState.init "A" "PerGame"
      "2023-24" "Regular Season").1 [] rfl,
   (C7_fetch_frame_effects trivRemote oneDB PState.init "A" "PerGame"
      "2023-24" "Regular Season").2 [] rfl⟩

/-- C8: when the name does not resolve, the fetches overwrite the id
attribute with None and the name attribute with the unresolved name and then
raise, while every cached dataframe attribute keeps its previous value. -/
theorem C8_failed_lookup_effects (remote : Remote) (pdb : PlayerDB)
    (tdb : TeamDB) (p : PState) (t : TState)
    (name tname season stype pm : String) :
    (get_player_id pdb name = none →
      fetch_career_stats remote pdb p name pm
        = ({ p with player_id := none, player_name := some name },
           .error (playerNotFoundMsg name)))
    ∧ (get_player_id pdb name = none →
      fetch_game_log remote pdb p name season stype
        = ({ p with player_id := none, player_name := some name },
           .error (playerNotFoundMsg name)))
    ∧ (get_team_id tdb tname = none →
      fetch_team_game_log remote tdb t tname season stype
        = ({ t with team_id := none, team_name := some tname },
           .error (teamNotFoundMsg tname))) := by
  refine ⟨?_, ?_, ?_⟩
  · intro h; simp [fetch_career_stats, h]
  · intro h; simp [fetch_game_log, h]
  · intro h; simp [fetch_team_game_log, h]

/-- Witness for C8: failing lookups on concrete analyzers whose dataframe
attributes are already populated. -/
theorem C8_witness :
    fetch_career_stats trivRemote emptyDB
        ⟨some 7, some "Old", some [], some []⟩ "Nobody" "PerGame"
      = (⟨none, some "Nobody", some [], some []⟩,
         .error (playerNotFoundMsg "Nobody"))
    ∧ fetch_team_game_log trivRemote emptyTeamDB
        ⟨some 8, some "OldTeam", some [], some []⟩ "Nowhere" "2023-24"
        "Regular Season"
      = (⟨none, some "Nowhere", some [], some []⟩,
         .error (teamNotFoundMsg "Nowhere")) :=
  ⟨(C8_failed_lookup_effects trivRemote emptyDB emptyTeamDB
      ⟨some 7, some "Old", some [], some []⟩
      ⟨some 8, some "OldTeam", some [], some []⟩
      "Nobody" "Nowhere" "2023-24" "Regular Season" "PerGame").1 rfl,
   (C8_failed_lookup_effects trivRemote emptyDB emptyTeamDB
      ⟨some 7, some "Old", some [], some []⟩
      ⟨some 8, some "OldTeam", some [], some []⟩
      "Nobody" "Nowhere" "2023-24" "Regular Season" "PerGame").2.2 rfl⟩

theorem filter_length_pos {α : Type} (p : α → Bool) (l : List α) :
    0 < (l.filter p).length ↔ ∃ a ∈ l, p a := by
  rw [← l.countP_eq_length_filter p]
  exact List.countP_pos_iff

/-- C3: for a loaded non-empty shot frame, `get_shot_statistics` returns a
dict where `made_shots` counts the rows with `SHOT_MADE_FLAG` 1, made plus
missed equals `total_shots` (the row count), `fg_percentage` is
made over total times 100, and the three-point (resp. two-point) keys are
present exactly when some row has `SHOT_TYPE` 3PT (resp. 2PT) Field Goal,
with the percentage equal to made over attempts times 100. -/
theorem C3_shot_statistics (df : ShotDF) (h : df ≠ []) :
    (get_shot_statistics ⟨some df⟩).lookup "total_shots" = some df.length
    ∧ (get_shot_statistics ⟨some df⟩).lookup "made_shots"
        = some ((df.filter (fun r => r.SHOT_MADE_FLAG = 1)).length : ℚ)
    ∧ ((get_shot_statistics ⟨some df⟩).lookup "made_shots").getD 0
        + ((get_shot_statistics ⟨some df⟩).lookup "missed_shots").getD 0
        = ((get_shot_statistics ⟨some df⟩).lookup "total_shots").getD 0
    ∧ (get_shot_statistics ⟨some df⟩).lookup "fg_percentage"
        = some (((made_shots_of df).length : ℚ) / df.length * 100)
    ∧ (((get_shot_statistics ⟨some df⟩).lookup "three_pt_attempts").isSome
        ↔ ∃ r ∈ df, r.SHOT_TYPE = "3PT Field Goal")
    ∧ (((get_shot_statistics ⟨some df⟩).lookup "three_pt_made").isSome
        ↔ ∃ r ∈ df, r.SHOT_TYPE = "3PT Field Goal")
    ∧ (((get_shot_statistics ⟨some df⟩).lookup "three_pt_percentage").isSome
        ↔ ∃ r ∈ df, r.SHOT_TYPE = "3PT Field Goal")
    ∧ ((∃ r ∈ df, r.SHOT_TYPE = "3PT Field Goal") →
        (get_shot_statistics ⟨some df⟩).lookup "three_pt_percentage"
          = some ((((three_pointers_of df).filter
                (fun r => r.SHOT_MADE_FLAG = 1)).length : ℚ)
              / (three_pointers_of df).length * 100))
    ∧ (((get_shot_statistics ⟨some df⟩).lookup "two_pt_attempts").isSome
        ↔ ∃ r ∈ df, r.SHOT_TYPE = "2PT Field Goal")
    ∧ (((get_shot_statistics ⟨some df⟩).lookup "two_pt_made").isSome
        ↔ ∃ r ∈ df, r.SHOT_TYPE = "2PT Field Goal")
    ∧ (((get_shot_statistics ⟨some df⟩).lookup "two_pt_percentage").isSome
        ↔ ∃ r ∈ df, r.SHOT_TYPE = "2PT Field Goal")
    ∧ ((∃ r ∈ df, r.SHOT_TYPE = "2PT Field Goal") →
        (get_shot_statistics ⟨some df⟩).lookup "two_pt_percentage"
          = some ((((two_pointers_of df).filter
                (fun r => r.SHOT_MADE_FLAG = 1)).length : ℚ)
              / (two_pointers_of df).length * 100)) := by
  have hlen : ¬ df.length = 0 := by simpa using h
  have hpos : 0 < df.length := Nat.pos_of_ne_zero hlen
  have h3 : 0 < (three_pointers_of df).length
      ↔ ∃ r ∈ df, r.SHOT_TYPE = "3PT Field Goal" := by
    simpa [three_pointers_of] using
      filter_length_pos (fun r : ShotRow => decide (r.SHOT_TYPE = "3PT Field Goal")) df
  have h2 : 0 < (two_pointers_of df).length
      ↔ ∃ r ∈ df, r.SHOT_TYPE = "2PT Field Goal" := by
    simpa [two_pointers_of] using
      filter_length_pos (fun r : ShotRow => decide (r.SHOT_TYPE = "2PT Field Goal")) df
  have hchar : get_shot_statistics ⟨some df⟩ =
      [("total_shots", (df.length : ℚ)),
       ("made_shots", ((made_shots_of df).length : ℚ)),
       ("missed_shots", (df.length : ℚ) - (made_shots_of df).length),
       ("fg_percentage", ((made_shots_of df).length : ℚ) / df.length * 100)]
      ++ (if 0 < (three_pointers_of df).length then
           [("three_pt_attempts", ((three_pointers_of df).length : ℚ)),
            ("three_pt_made", (((three_pointers_of df).filter
                (fun r => r.SHOT_MADE_FLAG = 1)).length : ℚ)),
            ("three_pt_percentage", (((three_pointers_of df).filter
                (fun r => r.SHOT_MADE_FLAG = 1)).length : ℚ)
              / (three_pointers_of df).length * 100)]
          else [])
      ++ (if 0 < (two_pointers_of df).length then
           [("two_pt_attempts", ((two_pointers_of df).length : ℚ)),
            ("two_pt_made", (((two_pointers_of df).filter
                (fun r => r.SHOT_MADE_FLAG = 1)).length : ℚ)),
            ("two_pt_percentage", (((two_pointers_of df).filter
                (fun r => r.SHOT_MADE_FLAG = 1)).length : ℚ)
              / (two_pointers_of df).length * 100)]
          else []) := by
    simp [get_shot_statistics, hlen, hpos]
  rw [hchar]
  by_cases e3 : ∃ r ∈ df, r.SHOT_TYPE = "3PT Field Goal"
    <;> by_cases e2 : ∃ r ∈ df, r.SHOT_TYPE = "2PT Field Goal"
  · simp only [if_pos (h3.mpr e3), if_pos (h2.mpr e2)]
    simp [List.lookup, e3, e2, made_shots_of]
  · simp only [if_pos (h3.mpr e3), if_neg (fun hc => e2 (h2.mp hc))]
    simp [List.lookup, e3, e2, made_shots_of]
  · simp only [if_neg (fun hc => e3 (h3.mp hc)), if_pos (h2.mpr e2)]
    simp [List.lookup, e3, e2, made_shots_of]
  · simp only [if_neg (fun hc => e3 (h3.mp hc)), if_neg (fun hc => e2 (h2.mp hc))]
    simp [List.lookup, e3, e2, made_shots_of]

/-- Witness for C3: the two-row sample frame (one made three, one missed
two). -/
theorem C3_witness :
    sampleShotDF ≠ []
    ∧ (get_shot_statistics ⟨some sampleShotDF⟩).lookup "fg_percentage"
        = some (((made_shots_of sampleShotDF).length : ℚ)
            / sampleShotDF.length * 100) :=
  ⟨by decide, (C3_shot_statistics sampleShotDF (by decide)).2.2.2.1⟩

/-- C4: `plot_win_loss_record` works on the game log reversed into
chronological order, `IS_WIN` is 1 exactly when `WL` is the literal `W` and
0 otherwise, and at every 0-based position i of the reversed log the
cumulative wins plus the cumulative losses equal i + 1. -/
theorem C4_win_loss_cumulative (st : TState) (log : TeamGameDF)
    (hst : st.game_log = some log) (hne : log ≠ []) (i : Nat)
    (hi : i < log.length) :
    plot_win_loss_record st
      = .ok { IS_WIN := log.reverse.map is_win,
              CUMULATIVE_WINS := cumsum (log.reverse.map is_win),
              CUMULATIVE_LOSSES :=
                cumsum ((log.reverse.map is_win).map (fun x => 1 - x)) }
    ∧ (∀ r : TeamGameRow,
        (is_win r = 1 ↔ r.WL = "W") ∧ (is_win r = 0 ↔ r.WL ≠ "W"))
    ∧ (cumsum (log.reverse.map is_win)).getD i 0
        + (cumsum ((log.reverse.map is_win).map (fun x => 1 - x))).getD i 0
        = (i : ℤ) + 1 := by
  refine ⟨?_, ?_, ?_⟩
  · have hlen : ¬ log.length = 0 := by simpa using hne
    simp [plot_win_loss_record, hst, hlen]
  · intro r
    constructor
    · constructor
      · intro h1
        by_contra hw
        simp [is_win, hw] at h1
      · intro hw
        simp [is_win, hw]
    · constructor
      · intro h0
        intro hw
        simp [is_win, hw] at h0
      · intro hw
        simp [is_win, hw]
  · have hwlen : i < (log.reverse.map is_win).length := by
      simpa using hi
    rw [cumsum_getD _ i hwlen, cumsum_getD _ i (by simpa using hwlen),
      ← List.map_take, ← List.map_take, ← List.map_take, sum_map_one_sub]
    have hlen2 : (((log.reverse.take (i + 1)).map is_win).length : ℤ)
        = (i : ℤ) + 1 := by
      have hmin : ((log.reverse.take (i + 1)).map is_win).length = i + 1 := by
        simp only [List.length_map, List.length_take, List.length_reverse]
        omega
      rw [hmin]
      push_cast
      ring
    rw [hlen2]
    ring

/-- Witness for C4: a two-game log (a win then a loss) at position 1. -/
theorem C4_witness :
    (cumsum ([winRow, lossRow].reverse.map is_win)).getD 1 0
      + (cumsum (([winRow, lossRow].reverse.map is_win).map
          (fun x => 1 - x))).getD 1 0
      = ((1 : ℕ) : ℤ) + 1 :=
  (C4_win_loss_cumulative ⟨none, none, none, some [winRow, lossRow]⟩
    [winRow, lossRow] rfl (by decide) 1 (by decide)).2.2

/-- C5: `get_team_summary` enforces no invariant tying wins and losses to
games played: on the one-game log whose `WL` is `T`, it returns normally a
non-empty summary with wins + losses strictly below games_played. -/
theorem C5_no_win_loss_invariant :
    get_team_summary ⟨none, none, none, some [tieRow]⟩ ≠ []
    ∧ (get_team_summary ⟨none, none, none, some [tieRow]⟩).lookup "wins"
        = some 0
    ∧ (get_team_summary ⟨none, none, none, some [tieRow]⟩).lookup "losses"
        = some 0
    ∧ (get_team_summary ⟨none, none, none, some [tieRow]⟩).lookup
        "games_played" = some 1
    ∧ ((get_team_summary ⟨none, none, none, some [tieRow]⟩).lookup
          "wins").getD 0
        + ((get_team_summary ⟨none, none, none, some [tieRow]⟩).lookup
          "losses").getD 0
        < ((get_team_summary ⟨none, none, none, some [tieRow]⟩).lookup
          "games_played").getD 0 := by
  refine ⟨?_, ?_, ?_, ?_, ?_⟩ <;>
    simp [get_team_summary, tieRow, List.lookup]

/-- C6: writing a non-empty list of whitespace-free game identifiers with
`write_to_text` (one per line, no header) and reading the file back with the
NBA_API.py loop (stripping each line) returns exactly the original list. -/
theorem C6_roundtrip (ids : List (List Char)) (hne : ids ≠ [])
    (hws : ∀ id ∈ ids, ∀ c ∈ id, isPySpace c = false) :
    ∃ contents, write_to_text ids = some contents
      ∧ read_games contents = ids := by
  refine ⟨ids.foldr (fun gid acc => gid ++ '\n' :: acc) [], ?_, ?_⟩
  · cases ids with
    | nil => exact absurd rfl hne
    | cons g gs => rfl
  · exact read_serialized ids hws

/-- Witness for C6: the two sample identifiers round-trip. -/
theorem C6_witness :
    sampleIds ≠ []
    ∧ (∀ id ∈ sampleIds, ∀ c ∈ id, isPySpace c = false)
    ∧ ∃ contents, write_to_text sampleIds = some contents
        ∧ read_games contents = sampleIds :=
  ⟨by decide, by decide, C6_roundtrip sampleIds (by decide) (by decide)⟩

/-- C9 counterexample: `plot_shot_chart` does not raise in the states where
`get_shot_statistics` returns the empty dict — with an empty shot frame
cached it returns a figure, and with `shot_data` None it fetches (the name
resolving here) and returns a figure. -/
theorem C9_counterexample :
    get_shot_statistics ⟨some []⟩ = []
    ∧ (plot_shot_chart trivRemote oneDB ⟨some []⟩ "Stephen Curry" "2023-24"
        "Regular Season" none).2
      = .ok (shotPlotOf [] "Stephen Curry" "2023-24" "Regular Season" none)
    ∧ get_shot_statistics ⟨none⟩ = []
    ∧ plot_shot_chart trivRemote oneDB ⟨none⟩ "Stephen Curry" "2023-24"
        "Regular Season" none
      = (⟨some []⟩, .ok (shotPlotOf [] "Stephen Curry" "2023-24"
          "Regular Season" none)) :=
  ⟨rfl, rfl, rfl, rfl⟩

/-- C9 amended: whenever the cached dataframe an operation reads is None or
empty, the summary operations return an empty dict (`create_stats_summary`
an empty dataframe) and the `PlayerStatsAnalyzer` and `TeamStatsAnalyzer`
plot operations raise; `ShotChartAnalyzer.plot_shot_chart` does not raise in
those states: on an empty cached frame it returns a figure, and on a None
`shot_data` it fetches — raising only when the player name does not resolve,
otherwise caching the fetched frame and returning its figure. -/
theorem C9_amended_empty_behaviour (remote : Remote) (db : PlayerDB)
    (p : PState) (t : TState) (s : SState)
    (stat player_name season season_type : String) (top_n : Nat)
    (title : Option String) :
    (s.shot_data = none ∨ s.shot_data = some [] → get_shot_statistics s = [])
    ∧ (p.game_log = none ∨ p.game_log = some [] → get_season_averages p = [])
    ∧ (p.game_log = none ∨ p.game_log = some [] → create_stats_summary p = [])
    ∧ (t.game_log = none ∨ t.game_log = some [] → get_team_summary t = [])
    ∧ (p.career_stats = none ∨ p.career_stats = some [] →
        ∃ e, plot_career_progression p stat = .error e)
    ∧ (p.game_log = none ∨ p.game_log = some [] →
        ∃ e, plot_season_performance p = .error e)
    ∧ (p.game_log = none ∨ p.game_log = some [] →
        ∃ e, plot_shooting_splits p = .error e)
    ∧ (t.team_stats = none ∨ t.team_stats = some [] →
        ∃ e, plot_league_leaders t stat top_n = .error e)
    ∧ (t.game_log = none ∨ t.game_log = some [] →
        ∃ e, plot_team_performance t = .error e)
    ∧ (t.game_log = none ∨ t.game_log = some [] →
        ∃ e, plot_win_loss_record t = .error e)
    ∧ (s.shot_data = some [] →
        (plot_shot_chart remote db s player_name season season_type title).2
          = .ok (shotPlotOf [] player_name season season_type title))
    ∧ (s.shot_data = none → get_player_id db player_name = none →
        plot_shot_chart remote db s player_name season season_type title
          = (s, .error (playerNotFoundMsg player_name)))
    ∧ (s.shot_data = none → ∀ i, get_player_id db player_name = some i →
        plot_shot_chart remote db s player_name season season_type title
          = (⟨some (remote.shotChartDetail i season season_type)⟩,
             .ok (shotPlotOf (remote.shotChartDetail i season season_type)
               player_name season season_type title))) := by
  refine ⟨?_, ?_, ?_, ?_, ?_, ?_, ?_, ?_, ?_, ?_, ?_, ?_, ?_⟩
  · rintro (h | h) <;> simp [get_shot_statistics, h]
  · rintro (h | h) <;> simp [get_season_averages, h]
  · rintro (h | h) <;> simp [create_stats_summary, h]
  · rintro (h | h) <;> simp [get_team_summary, h]
  · rintro (h | h) <;> simp [plot_career_progression, h]
  · rintro (h | h) <;> simp [plot_season_performance, h]
  · rintro (h | h) <;> simp [plot_shooting_splits, h]
  · rintro (h | h) <;> simp [plot_league_leaders, h]
  · rintro (h | h) <;> simp [plot_team_performance, h]
  · rintro (h | h) <;> simp [plot_win_loss_record, h]
  · intro h; simp [plot_shot_chart, h]
  · intro h hid; simp [plot_shot_chart, h, fetch_shot_data, hid]
  · intro h i hid; simp [plot_shot_chart, h, fetch_shot_data, hid]

/-- Witness for C9: fresh analyzer instances with nothing fetched; the shot
plot fetches through a resolving name instead of raising. -/
theorem C9_witness :
    get_shot_statistics SState.init = []
    ∧ (∃ e, plot_win_loss_record TState.init = .error e)
    ∧ plot_shot_chart trivRemote oneDB SState.init "Stephen Curry" "2023-24"
        "Regular Season" none
      = (⟨some []⟩, .ok (shotPlotOf [] "Stephen Curry" "2023-24"
          "Regular Season" none)) :=
  ⟨(C9_amended_empty_behaviour trivRemote oneDB PState.init TState.init
      SState.init "PTS" "Stephen Curry" "2023-24" "Regular Season" 10
      none).1 (Or.inl rfl),
   (C9_amended_empty_behaviour trivRemote oneDB PState.init TState.init
      SState.init "PTS" "Stephen Curry" "2023-24" "Regular Season" 10
      none).2.2.2.2.2.2.2.2.2.1 (Or.inl rfl),
   (C9_amended_empty_behaviour trivRemote oneDB PState.init TState.init
      SState.init "PTS" "Stephen Curry" "2023-24" "Regular Season" 10
      none).2.2.2.2.2.2.2.2.2.2.2.2 rfl 1 rfl⟩

/-- C10 counterexample: with the same non-None cached frame, two
`plot_shot_chart` calls that differ only in the `player_name` argument
produce different charts (the default title embeds the argument), so the
chart is not derived from the cached data alone. -/
theorem C10_counterexample :
    (plot_shot_chart trivRemote oneDB ⟨some sampleShotDF⟩ "LeBron James"
        "2023-24" "Regular Season" none).2
      ≠ (plot_shot_chart trivRemote oneDB ⟨some sampleShotDF⟩ "Stephen Curry"
        "2023-24" "Regular Season" none).2 := by
  intro heq
  simp [plot_shot_chart, shotPlotOf, default_title] at heq
  have hl := congrArg String.length heq
  simp [String.length_append] at hl
  exact absurd hl (by decide)

/-- C10 amended: when `shot_data` is already non-None, `plot_shot_chart`
performs no fetch and leaves the state unchanged; the plotted made and
missed points and the computed FG% come from the cached frame alone,
independent of the arguments, while the default title text embeds the
`player_name`, `season` and `season_type` arguments of this call. -/
theorem C10_amended_cached_plot (remote : Remote) (db : PlayerDB)
    (st : SState) (df : ShotDF) (h : st.shot_data = some df)
    (player_name season season_type : String) (title : Option String) :
    plot_shot_chart remote db st player_name season season_type title
      = (st, .ok (shotPlotOf df player_name season season_type title))
    ∧ (shotPlotOf df player_name season season_type title).made
        = (made_shots_of df).map (fun r => (r.LOC_X, r.LOC_Y))
    ∧ (shotPlotOf df player_name season season_type title).missed
        = (missed_shots_of df).map (fun r => (r.LOC_X, r.LOC_Y))
    ∧ (shotPlotOf df player_name season season_type title).title
        = title.getD
            (default_title player_name season season_type (shot_fg_pct df)) := by
  refine ⟨?_, rfl, rfl, ?_⟩
  · simp [plot_shot_chart, h]
  · cases title <;> rfl

/-- Witness for C10: a cached two-row frame, arbitrary arguments. -/
theorem C10_witness :
    plot_shot_chart trivRemote oneDB ⟨some sampleShotDF⟩ "A" "2023-24"
        "Regular Season" none
      = (⟨some sampleShotDF⟩, .ok (shotPlotOf sampleShotDF "A" "2023-24"
          "Regular Season" none)) :=
  (C10_amended_cached_plot trivRemote oneDB ⟨some sampleShotDF⟩ sampleShotDF
    rfl "A" "2023-24" "Regular Season" none).1
